import Mathlib

/-!
Shallow embedding of the budget and goal allocation core of
`MyFinance-Manager.py`: ledger rows, budget rows, savings goals, and the
operations `set_budget`, `view_budget_for_category`,
`calculate_overall_budget`, `add_excess_income`, `remove_or_move_savings`
and `view_goal_progress`.  Monetary amounts are modelled as rationals and
SQL result sets as lists in primary-key order.
-/

namespace MyFinance

/-- A calendar date `YYYY-MM-DD`, stored structurally; the SQL filters
`strftime` and `SUBSTR` both read off the month and year components of the
stored timestamp string. -/
structure Date where
  year : Nat
  month : Nat
  day : Nat
deriving DecidableEq, Repr

/-- A row of the `expenses` or `income` table. -/
structure LedgerEntry where
  id : Nat
  category : String
  amount : Rat
  timestamp : Date
deriving DecidableEq, Repr

/-- A row of the `budget` table (UNIQUE on category, month, year). -/
structure BudgetRow where
  id : Nat
  category : String
  budget_amount : Rat
  month : Nat
  year : Nat
deriving DecidableEq, Repr

/-- A row of the `savings_goals` table. -/
structure SavingsGoal where
  id : Nat
  goal_name : String
  target_amount : Rat
  current_saved : Rat
  target_date : Date
deriving DecidableEq, Repr

/-- The six tables of the store. -/
structure DB where
  expenses : List LedgerEntry
  income : List LedgerEntry
  expense_categories : List (Nat × String)
  income_categories : List (Nat × String)
  budgets : List BudgetRow
  goals : List SavingsGoal
deriving DecidableEq, Repr

/-- `SELECT COALESCE(SUM(amount), 0) FROM income WHERE strftime month = ?
AND strftime year = ?` (used verbatim both in
`BudgetManager.calculate_overall_budget` and in
`GoalManager.add_excess_income`). -/
def sumIncomeFor (db : DB) (month year : Nat) : Rat :=
  ((db.income.filter (fun e =>
      decide (e.timestamp.month = month ∧ e.timestamp.year = year))).map
    LedgerEntry.amount).sum

/-- `SELECT COALESCE(SUM(amount), 0) FROM expenses WHERE strftime month = ?
AND strftime year = ?`. -/
def sumExpensesFor (db : DB) (month year : Nat) : Rat :=
  ((db.expenses.filter (fun e =>
      decide (e.timestamp.month = month ∧ e.timestamp.year = year))).map
    LedgerEntry.amount).sum

/-- `SELECT COALESCE(SUM(amount), 0) FROM expenses WHERE category = ? AND
SUBSTR(timestamp, 6, 2) = ? AND SUBSTR(timestamp, 1, 4) = ?` from
`BudgetManager.view_budget_for_category`. -/
def sumExpensesForCategory (db : DB) (category : String) (month year : Nat) : Rat :=
  ((db.expenses.filter (fun e =>
      decide (e.category = category ∧ e.timestamp.month = month ∧
        e.timestamp.year = year))).map
    LedgerEntry.amount).sum

/-- `SELECT COALESCE(SUM(current_saved), 0) FROM savings_goals`. -/
def totalSaved (gs : List SavingsGoal) : Rat :=
  (gs.map SavingsGoal.current_saved).sum

/-- `available_excess = total_income - total_expenses - allocated_excess`
as computed at the top of `GoalManager.add_excess_income`. -/
def availableExcess (db : DB) (month year : Nat) : Rat :=
  sumIncomeFor db month year - sumExpensesFor db month year - totalSaved db.goals

/-- First row of `SELECT ... FROM savings_goals WHERE id = ?`. -/
def findGoal : List SavingsGoal → Nat → Option SavingsGoal
  | [], _ => none
  | g :: gs, i => if g.id = i then some g else findGoal gs i

/-- `current_saved` of the first goal with the given id, 0 when absent. -/
def savedOf : List SavingsGoal → Nat → Rat
  | [], _ => 0
  | g :: gs, i => if g.id = i then g.current_saved else savedOf gs i

/-- Row effect of `UPDATE savings_goals SET current_saved =
current_saved + ? WHERE id = ?` on one row. -/
def creditFn (i : Nat) (a : Rat) (g : SavingsGoal) : SavingsGoal :=
  if g.id = i then { g with current_saved := g.current_saved + a } else g

/-- Row effect of `UPDATE savings_goals SET current_saved =
current_saved - ? WHERE id = ?` on one row. -/
def debitFn (i : Nat) (a : Rat) (g : SavingsGoal) : SavingsGoal :=
  if g.id = i then { g with current_saved := g.current_saved - a } else g

/-- `UPDATE savings_goals SET current_saved = current_saved + ? WHERE id = ?`
(a no-op on rows whose id differs; a no-op on the whole table when no row
has the id, exactly as the SQL UPDATE). -/
def creditGoal (gs : List SavingsGoal) (i : Nat) (a : Rat) : List SavingsGoal :=
  gs.map (creditFn i a)

/-- `UPDATE savings_goals SET current_saved = current_saved - ? WHERE id = ?`. -/
def debitGoal (gs : List SavingsGoal) (i : Nat) (a : Rat) : List SavingsGoal :=
  gs.map (debitFn i a)

/-- Whether a row with the given id exists in `savings_goals`. -/
def hasGoal (gs : List SavingsGoal) (i : Nat) : Bool :=
  (findGoal gs i).isSome

/-- The per-goal accept/reject loop of `GoalManager.add_excess_income`:
the offered amounts are processed in order against one shared running
remaining-excess counter; an offer is rejected when it is negative
(`amt < 0`) or exceeds the remaining excess (`amt > available_excess`),
skipped when zero, and a positive in-budget offer is recorded in
`allocations` while the counter is decremented (`available_excess -= amt`).
Returns the final remaining excess and the recorded allocations. -/
def processAssignments : Rat → List (Nat × Rat) → Rat × List (Nat × Rat)
  | remaining, [] => (remaining, [])
  | remaining, (i, a) :: rest =>
    if a < 0 then processAssignments remaining rest
    else if remaining < a then processAssignments remaining rest
    else if 0 < a then
      let next := processAssignments (remaining - a) rest
      (next.1, (i, a) :: next.2)
    else processAssignments remaining rest

/-- The final loop of `GoalManager.add_excess_income`: one
`UPDATE savings_goals SET current_saved = current_saved + ?` per recorded
allocation. -/
def applyAllocations (gs : List SavingsGoal) (allocs : List (Nat × Rat)) :
    List SavingsGoal :=
  allocs.foldl (fun acc p => creditGoal acc p.1 p.2) gs

/-- `GoalManager.add_excess_income`: computes the available excess for the
chosen month and year, returns unchanged when it is `<= 0` or when there
are no goals, otherwise runs the accept/reject loop over the offered
assignments (the per-goal user inputs, in order) and applies the
recorded allocations. -/
def add_excess_income (db : DB) (month year : Nat)
    (assignments : List (Nat × Rat)) : DB :=
  if availableExcess db month year ≤ 0 then db
  else if db.goals.isEmpty then db
  else
    let allocs := (processAssignments (availableExcess db month year) assignments).2
    { db with goals := applyAllocations db.goals allocs }

/-- The action chosen in `GoalManager.remove_or_move_savings`: remove, or
transfer to the goal id the user enters (the code does not validate it). -/
inductive SavingsAction where
  | remove
  | transfer (dest : Nat)
deriving DecidableEq, Repr

/-- The early-return messages of `GoalManager.remove_or_move_savings`. -/
inductive OpError where
  | noGoals
  | goalNotFound
  | insufficientSaved
deriving DecidableEq, Repr

/-- `GoalManager.remove_or_move_savings`: returns early when there are no
goals, when the chosen goal id is absent, or when `amt > current_saved` of
the chosen goal; otherwise action 1 debits the goal, and action 2 first
credits the entered destination id and then debits the source goal (two
separate UPDATE statements, no check on the destination id). -/
def remove_or_move_savings (db : DB) (goal_id : Nat) (amt : Rat)
    (action : SavingsAction) : DB × Option OpError :=
  if db.goals.isEmpty then (db, some OpError.noGoals)
  else
    match findGoal db.goals goal_id with
    | none => (db, some OpError.goalNotFound)
    | some g =>
      if g.current_saved < amt then (db, some OpError.insufficientSaved)
      else
        match action with
        | SavingsAction.remove =>
            ({ db with goals := debitGoal db.goals goal_id amt }, none)
        | SavingsAction.transfer dest =>
            ({ db with goals :=
                debitGoal (creditGoal db.goals dest amt) goal_id amt }, none)

/-- The `ON CONFLICT(category, month, year)` key of the `budget` table. -/
def budgetMatches (category : String) (month year : Nat) (b : BudgetRow) : Bool :=
  decide (b.category = category ∧ b.month = month ∧ b.year = year)

/-- AUTOINCREMENT id for a fresh budget row. -/
def nextBudgetId (bs : List BudgetRow) : Nat :=
  (bs.map BudgetRow.id).foldr max 0 + 1

/-- Overwrite effect of the upsert on one conflicting budget row. -/
def budgetUpd (category : String) (month year : Nat) (budget_amount : Rat)
    (b : BudgetRow) : BudgetRow :=
  if budgetMatches category month year b then
    { b with budget_amount := budget_amount } else b

/-- `BudgetManager.set_budget`: `INSERT INTO budget ... ON
CONFLICT(category, month, year) DO UPDATE SET budget_amount =
excluded.budget_amount` — appends a fresh row when the triple is new,
otherwise overwrites `budget_amount` of the conflicting row. -/
def set_budget (db : DB) (category : String) (budget_amount : Rat)
    (month year : Nat) : DB :=
  if db.budgets.any (budgetMatches category month year) then
    { db with budgets := db.budgets.map (budgetUpd category month year budget_amount) }
  else
    { db with budgets :=
        db.budgets ++ [⟨nextBudgetId db.budgets, category, budget_amount, month, year⟩] }

/-- `BudgetManager.view_budget_for_category`: returns early (printing
"No budget set") when no budget row exists for the triple, otherwise
reports the stored `budget_amount` and the summed expenses for the
category and period. -/
def view_budget_for_category (db : DB) (category : String) (month year : Nat) :
    Option (Rat × Rat) :=
  match db.budgets.find? (budgetMatches category month year) with
  | none => none
  | some b => some (b.budget_amount, sumExpensesForCategory db category month year)

/-- `BudgetManager.calculate_overall_budget`: total income, total expenses
and `net_budget = total_income - total_expenses` for the period. -/
def calculate_overall_budget (db : DB) (month year : Nat) : Rat × Rat × Rat :=
  (sumIncomeFor db month year, sumExpensesFor db month year,
   sumIncomeFor db month year - sumExpensesFor db month year)

/-- AUTOINCREMENT id for a fresh ledger row. -/
def nextLedgerId (es : List LedgerEntry) : Nat :=
  (es.map LedgerEntry.id).foldr max 0 + 1

/-- `ExpenseManager.add_expense`: inserts an expense row carrying the
denormalized name of the chosen category; returns unchanged when the
chosen category id is invalid. -/
def add_expense (db : DB) (amount : Rat) (d : Date) (cat_id : Nat) : DB :=
  match db.expense_categories.find? (fun c => decide (c.1 = cat_id)) with
  | none => db
  | some c =>
      { db with expenses := db.expenses ++ [⟨nextLedgerId db.expenses, c.2, amount, d⟩] }

/-- `IncomeManager.add_income`: inserts an income row carrying the
denormalized name of the chosen category; returns unchanged when the
chosen category id is invalid. -/
def add_income (db : DB) (amount : Rat) (d : Date) (cat_id : Nat) : DB :=
  match db.income_categories.find? (fun c => decide (c.1 = cat_id)) with
  | none => db
  | some c =>
      { db with income := db.income ++ [⟨nextLedgerId db.income, c.2, amount, d⟩] }

/-- One printed line of `GoalManager.view_goal_progress`. -/
structure ProgressLine where
  goal_name : String
  current_saved : Rat
  target_amount : Rat
  percent : Rat
deriving DecidableEq, Repr

/-- `GoalManager.view_goal_progress`: per goal, the reported percentage is
`(saved / target) * 100 if target > 0 else 0`. -/
def view_goal_progress (db : DB) : List ProgressLine :=
  db.goals.map (fun g =>
    ⟨g.goal_name, g.current_saved, g.target_amount,
      if 0 < g.target_amount then g.current_saved / g.target_amount * 100 else 0⟩)

/-- The fields of a savings goal other than `current_saved`. -/
def goalFrame (g : SavingsGoal) : Nat × String × Rat × Date :=
  (g.id, g.goal_name, g.target_amount, g.target_date)

/-- A fixed target date for concrete instances. -/
def sampleDate : Date := ⟨2026, 1, 1⟩

/-- Concrete goal with 100 saved. -/
def goalA : SavingsGoal := ⟨1, "Holiday", 1000, 100, sampleDate⟩

/-- Concrete goal with nothing saved. -/
def goalB : SavingsGoal := ⟨2, "Car", 500, 0, sampleDate⟩

/-- Concrete goal whose target amount is negative (nothing in
`create_goal` or `change_goal_amount` rejects a negative target). -/
def goalNeg : SavingsGoal := ⟨3, "Odd", -100, 50, sampleDate⟩

/-- Store holding only the two goals `goalA` and `goalB`. -/
def dbTwoGoals : DB := ⟨[], [], [], [], [], [goalA, goalB]⟩

/-- Store holding only the negative-target goal. -/
def dbNegTarget : DB := ⟨[], [], [], [], [], [goalNeg]⟩

/-- Store with the two goals of the transfer example: 200 and 10 saved. -/
def dbTransfer : DB :=
  ⟨[], [], [], [], [],
   [⟨1, "First", 1000, 200, sampleDate⟩, ⟨2, "Second", 1000, 10, sampleDate⟩]⟩

/-- Store with a March 2025 income of 1000 and two fresh goals. -/
def dbMarch : DB :=
  ⟨[], [⟨1, "Salary", 1000, ⟨2025, 3, 1⟩⟩], [(1, "Food")], [(1, "Salary")], [],
   [⟨1, "G", 100, 0, sampleDate⟩, ⟨2, "H", 100, 0, sampleDate⟩]⟩

/-- Store with the Food and Salary categories and nothing else, the
starting point of the end-to-end scenario. -/
def dbBase : DB := ⟨[], [], [(1, "Food")], [(1, "Salary")], [], []⟩

/-- The end-to-end scenario: Income 1000 on 2025-03-01, Expense 400 in
Food on 2025-03-15, then a Food budget of 300 for 3/2025. -/
def dbScenario : DB :=
  set_budget (add_expense (add_income dbBase 1000 ⟨2025, 3, 1⟩ 1) 400 ⟨2025, 3, 15⟩ 1)
    "Food" 300 3 2025

theorem creditFn_id (i : Nat) (a : Rat) (g : SavingsGoal) :
    (creditFn i a g).id = g.id := by
  by_cases h : g.id = i <;> simp [creditFn, h]

theorem debitFn_eq_creditFn_neg (i : Nat) (a : Rat) :
    debitFn i a = creditFn i (-a) := by
  funext g
  by_cases h : g.id = i <;> simp [debitFn, creditFn, h, sub_eq_add_neg]

theorem debitGoal_eq_creditGoal_neg (gs : List SavingsGoal) (i : Nat) (a : Rat) :
    debitGoal gs i a = creditGoal gs i (-a) := by
  rw [debitGoal, creditGoal, debitFn_eq_creditFn_neg]

theorem findGoal_id (gs : List SavingsGoal) (i : Nat) (g : SavingsGoal)
    (h : findGoal gs i = some g) : g.id = i := by
  induction gs with
  | nil => exact absurd h (by simp [findGoal])
  | cons g0 gs ih =>
    by_cases h0 : g0.id = i
    · rw [findGoal, if_pos h0] at h
      cases h
      exact h0
    · rw [findGoal, if_neg h0] at h
      exact ih h

theorem findGoal_map (f : SavingsGoal → SavingsGoal)
    (hf : ∀ g, (f g).id = g.id) (gs : List SavingsGoal) (j : Nat) :
    findGoal (gs.map f) j = (findGoal gs j).map f := by
  induction gs with
  | nil => rfl
  | cons g gs ih =>
    rw [List.map_cons, findGoal, findGoal, hf g]
    by_cases h : g.id = j
    · rw [if_pos h, if_pos h]
      rfl
    · rw [if_neg h, if_neg h, ih]

theorem savedOf_eq (gs : List SavingsGoal) (i : Nat) :
    savedOf gs i = ((findGoal gs i).map SavingsGoal.current_saved).getD 0 := by
  induction gs with
  | nil => rfl
  | cons g gs ih =>
    by_cases h : g.id = i
    · rw [savedOf, findGoal, if_pos h, if_pos h]
      rfl
    · rw [savedOf, findGoal, if_neg h, if_neg h, ih]

theorem findGoal_creditGoal (gs : List SavingsGoal) (i j : Nat) (a : Rat) :
    findGoal (creditGoal gs i a) j = (findGoal gs j).map (creditFn i a) := by
  rw [creditGoal, findGoal_map (creditFn i a) (creditFn_id i a)]

theorem hasGoal_creditGoal (gs : List SavingsGoal) (i j : Nat) (a : Rat) :
    hasGoal (creditGoal gs i a) j = hasGoal gs j := by
  rw [hasGoal, hasGoal, findGoal_creditGoal]
  cases findGoal gs j <;> rfl

theorem savedOf_creditGoal_self (gs : List SavingsGoal) (i : Nat) (a : Rat)
    (h : hasGoal gs i = true) :
    savedOf (creditGoal gs i a) i = savedOf gs i + a := by
  rw [hasGoal] at h
  obtain ⟨g, hg⟩ := Option.isSome_iff_exists.mp h
  have hid := findGoal_id gs i g hg
  rw [savedOf_eq, savedOf_eq, findGoal_creditGoal, hg]
  simp [creditFn, hid]

theorem savedOf_creditGoal_ne (gs : List SavingsGoal) (i j : Nat) (a : Rat)
    (h : j ≠ i) : savedOf (creditGoal gs i a) j = savedOf gs j := by
  rw [savedOf_eq, savedOf_eq, findGoal_creditGoal]
  cases hg : findGoal gs j with
  | none => rfl
  | some g =>
    have hid := findGoal_id gs j g hg
    have : ¬ g.id = i := by rw [hid]; exact h
    simp [creditFn, this]

theorem creditGoal_of_forall_ne (gs : List SavingsGoal) (i : Nat) (a : Rat)
    (h : ∀ g ∈ gs, ¬ g.id = i) : creditGoal gs i a = gs := by
  induction gs with
  | nil => rfl
  | cons g gs ih =>
    rw [creditGoal, List.map_cons]
    rw [show creditFn i a g = g from by
      simp [creditFn, h g (List.mem_cons_self g gs)]]
    rw [show List.map (creditFn i a) gs = creditGoal gs i a from rfl]
    rw [ih (fun x hx => h x (List.mem_cons_of_mem g hx))]

theorem totalSaved_cons (g : SavingsGoal) (gs : List SavingsGoal) :
    totalSaved (g :: gs) = g.current_saved + totalSaved gs := by
  simp [totalSaved]

theorem hasGoal_iff_mem (gs : List SavingsGoal) (i : Nat) :
    hasGoal gs i = true ↔ ∃ g ∈ gs, g.id = i := by
  induction gs with
  | nil => simp [hasGoal, findGoal]
  | cons g gs ih =>
    by_cases h : g.id = i
    · simp only [hasGoal, findGoal, if_pos h, Option.isSome_some]
      exact ⟨fun _ => ⟨g, List.mem_cons_self g gs, h⟩, fun _ => trivial⟩
    · simp only [hasGoal, findGoal, if_neg h]
      rw [hasGoal] at ih
      rw [ih]
      constructor
      · rintro ⟨x, hx, hxi⟩
        exact ⟨x, List.mem_cons_of_mem g hx, hxi⟩
      · rintro ⟨x, hx, hxi⟩
        rcases List.mem_cons.mp hx with rfl | hx2
        · exact absurd hxi h
        · exact ⟨x, hx2, hxi⟩

theorem totalSaved_creditGoal (gs : List SavingsGoal) (i : Nat) (a : Rat)
    (hnd : (gs.map SavingsGoal.id).Nodup) (h : hasGoal gs i = true) :
    totalSaved (creditGoal gs i a) = totalSaved gs + a := by
  rw [hasGoal_iff_mem] at h
  induction gs with
  | nil => simp at h
  | cons g gs ih =>
    rw [List.map_cons, List.nodup_cons] at hnd
    by_cases hg : g.id = i
    · have hne : ∀ x ∈ gs, ¬ x.id = i := by
        intro x hx hxi
        have hmem : x.id ∈ gs.map SavingsGoal.id :=
          List.mem_map_of_mem SavingsGoal.id hx
        rw [hxi, ← hg] at hmem
        exact hnd.1 hmem
      rw [creditGoal, List.map_cons]
      rw [show List.map (creditFn i a) gs = creditGoal gs i a from rfl]
      rw [creditGoal_of_forall_ne gs i a hne, totalSaved_cons, totalSaved_cons]
      rw [show creditFn i a g = { g with current_saved := g.current_saved + a } from by
        simp [creditFn, hg]]
      show g.current_saved + a + totalSaved gs = g.current_saved + totalSaved gs + a
      ring
    · have h2 : ∃ x ∈ gs, x.id = i := by
        rcases h with ⟨x, hx, hxi⟩
        rcases List.mem_cons.mp hx with rfl | hx2
        · exact absurd hxi hg
        · exact ⟨x, hx2, hxi⟩
      rw [creditGoal, List.map_cons]
      rw [show creditFn i a g = g from by simp [creditFn, hg]]
      rw [show List.map (creditFn i a) gs = creditGoal gs i a from rfl]
      rw [totalSaved_cons, totalSaved_cons, ih hnd.2 h2]
      ring

theorem findGoal_of_hasGoal (gs : List SavingsGoal) (i : Nat)
    (h : hasGoal gs i = true) :
    ∃ g, findGoal gs i = some g ∧ g.current_saved = savedOf gs i := by
  rw [hasGoal] at h
  obtain ⟨g, hg⟩ := Option.isSome_iff_exists.mp h
  exact ⟨g, hg, by rw [savedOf_eq, hg]; rfl⟩

theorem isEmpty_false_of_hasGoal (gs : List SavingsGoal) (i : Nat)
    (h : hasGoal gs i = true) : gs.isEmpty = false := by
  cases gs with
  | nil => exact absurd h (by simp [hasGoal, findGoal])
  | cons g gs => rfl

theorem creditGoal_map_id (gs : List SavingsGoal) (i : Nat) (a : Rat) :
    (creditGoal gs i a).map SavingsGoal.id = gs.map SavingsGoal.id := by
  induction gs with
  | nil => rfl
  | cons g gs ih =>
    rw [creditGoal, List.map_cons, List.map_cons, List.map_cons, creditFn_id]
    rw [show List.map (creditFn i a) gs = creditGoal gs i a from rfl, ih]

theorem creditFn_frame (i : Nat) (a : Rat) (g : SavingsGoal) :
    goalFrame (creditFn i a g) = goalFrame g := by
  by_cases h : g.id = i <;> simp [creditFn, goalFrame, h]

theorem creditGoal_map_frame (gs : List SavingsGoal) (i : Nat) (a : Rat) :
    (creditGoal gs i a).map goalFrame = gs.map goalFrame := by
  induction gs with
  | nil => rfl
  | cons g gs ih =>
    rw [creditGoal, List.map_cons, List.map_cons, List.map_cons, creditFn_frame]
    rw [show List.map (creditFn i a) gs = creditGoal gs i a from rfl, ih]

theorem applyAllocations_cons (gs : List SavingsGoal) (p : Nat × Rat)
    (l : List (Nat × Rat)) :
    applyAllocations gs (p :: l) = applyAllocations (creditGoal gs p.1 p.2) l := rfl

theorem applyAllocations_map_id (gs : List SavingsGoal) (l : List (Nat × Rat)) :
    (applyAllocations gs l).map SavingsGoal.id = gs.map SavingsGoal.id := by
  induction l generalizing gs with
  | nil => rfl
  | cons p l ih => rw [applyAllocations_cons, ih, creditGoal_map_id]

theorem applyAllocations_map_frame (gs : List SavingsGoal) (l : List (Nat × Rat)) :
    (applyAllocations gs l).map goalFrame = gs.map goalFrame := by
  induction l generalizing gs with
  | nil => rfl
  | cons p l ih => rw [applyAllocations_cons, ih, creditGoal_map_frame]

theorem savedOf_applyAllocations_of_ne (gs : List SavingsGoal)
    (l : List (Nat × Rat)) (i : Nat) (h : ∀ p ∈ l, p.1 ≠ i) :
    savedOf (applyAllocations gs l) i = savedOf gs i := by
  induction l generalizing gs with
  | nil => rfl
  | cons p l ih =>
    rw [applyAllocations_cons,
      ih _ (fun q hq => h q (List.mem_cons_of_mem p hq))]
    exact savedOf_creditGoal_ne gs p.1 i p.2
      (fun hip => h p (List.mem_cons_self p l) hip.symm)

theorem mem_processAssignments (r : Rat) (l : List (Nat × Rat)) (p : Nat × Rat)
    (h : p ∈ (processAssignments r l).2) : p ∈ l ∧ 0 < p.2 := by
  induction l generalizing r with
  | nil => simp [processAssignments] at h
  | cons q l ih =>
    obtain ⟨qi, qa⟩ := q
    by_cases h1 : qa < 0
    · simp only [processAssignments, if_pos h1] at h
      exact ⟨List.mem_cons_of_mem _ (ih r h).1, (ih r h).2⟩
    · by_cases h2 : r < qa
      · simp only [processAssignments, if_neg h1, if_pos h2] at h
        exact ⟨List.mem_cons_of_mem _ (ih r h).1, (ih r h).2⟩
      · by_cases h3 : 0 < qa
        · simp only [processAssignments, if_neg h1, if_neg h2, if_pos h3] at h
          rcases List.mem_cons.mp h with h4 | h4
          · exact ⟨by rw [h4]; exact List.mem_cons_self _ _, by rw [h4]; exact h3⟩
          · exact ⟨List.mem_cons_of_mem _ (ih (r - qa) h4).1, (ih (r - qa) h4).2⟩
        · simp only [processAssignments, if_neg h1, if_neg h2, if_neg h3] at h
          exact ⟨List.mem_cons_of_mem _ (ih r h).1, (ih r h).2⟩

theorem budgetMatches_fresh (c : String) (m y : Nat) (B : Rat) (n : Nat) :
    budgetMatches c m y ⟨n, c, B, m, y⟩ = true := by
  simp [budgetMatches]

theorem budgetMatches_budgetUpd (c : String) (m y : Nat) (B : Rat) (b : BudgetRow) :
    budgetMatches c m y (budgetUpd c m y B b) = budgetMatches c m y b := by
  by_cases h : budgetMatches c m y b = true
  · rw [budgetUpd, if_pos h]
    rfl
  · rw [budgetUpd, if_neg h]

theorem filter_budgets_map_upd (l : List BudgetRow) (c : String) (m y : Nat) (B : Rat) :
    (l.map (budgetUpd c m y B)).filter (budgetMatches c m y)
      = (l.filter (budgetMatches c m y)).map (budgetUpd c m y B) := by
  rw [List.filter_map]
  congr 1
  apply List.filter_congr
  intro b _
  exact budgetMatches_budgetUpd c m y B b

theorem set_budget_filter_length (db : DB) (c : String) (A : Rat) (m y : Nat)
    (h : (db.budgets.filter (budgetMatches c m y)).length ≤ 1) :
    ((set_budget db c A m y).budgets.filter (budgetMatches c m y)).length = 1 := by
  by_cases hany : db.budgets.any (budgetMatches c m y) = true
  · have hb : (set_budget db c A m y).budgets
        = db.budgets.map (budgetUpd c m y A) := by
      rw [set_budget, if_pos hany]
    rw [hb, filter_budgets_map_upd, List.length_map]
    obtain ⟨x, hx, hpx⟩ := List.any_eq_true.mp hany
    have hmem : x ∈ db.budgets.filter (budgetMatches c m y) :=
      List.mem_filter.mpr ⟨hx, hpx⟩
    have h1 : 0 < (db.budgets.filter (budgetMatches c m y)).length :=
      List.length_pos.mpr (List.ne_nil_of_mem hmem)
    omega
  · have hb : (set_budget db c A m y).budgets
        = db.budgets ++ [⟨nextBudgetId db.budgets, c, A, m, y⟩] := by
      rw [set_budget, if_neg hany]
    have hnil : db.budgets.filter (budgetMatches c m y) = [] := by
      rw [List.filter_eq_nil_iff]
      intro a ha hpa
      exact hany (List.any_eq_true.mpr ⟨a, ha, hpa⟩)
    rw [hb, List.filter_append, hnil]
    simp [budgetMatches_fresh]

theorem set_budget_amount (db : DB) (c : String) (A : Rat) (m y : Nat) :
    ∀ b ∈ (set_budget db c A m y).budgets, budgetMatches c m y b = true →
      b.budget_amount = A := by
  intro b hb hm
  by_cases hany : db.budgets.any (budgetMatches c m y) = true
  · have heq : (set_budget db c A m y).budgets
        = db.budgets.map (budgetUpd c m y A) := by
      rw [set_budget, if_pos hany]
    rw [heq] at hb
    obtain ⟨a, ha, rfl⟩ := List.mem_map.mp hb
    by_cases hma : budgetMatches c m y a = true
    · rw [budgetUpd, if_pos hma]
    · rw [budgetMatches_budgetUpd] at hm
      exact absurd hm hma
  · have heq : (set_budget db c A m y).budgets
        = db.budgets ++ [⟨nextBudgetId db.budgets, c, A, m, y⟩] := by
      rw [set_budget, if_neg hany]
    rw [heq] at hb
    rcases List.mem_append.mp hb with h1 | h1
    · exact absurd (List.any_eq_true.mpr ⟨b, h1, hm⟩) hany
    · rcases List.mem_cons.mp h1 with rfl | h2
      · rfl
      · exact absurd h2 (List.not_mem_nil b)

/-- Claim C5: `available_excess` equals the period net (as computed by
`calculate_overall_budget`) minus the all-time sum of `current_saved`
over every goal, it may be `<= 0`, and when it is `<= 0` the allocation
returns without modifying anything. -/
theorem claim_C5_available_excess (db : DB) (month year : Nat)
    (assignments : List (Nat × Rat)) :
    availableExcess db month year
      = (calculate_overall_budget db month year).2.2 - totalSaved db.goals ∧
    (availableExcess db month year ≤ 0 →
      add_excess_income db month year assignments = db) := by
  constructor
  · rfl
  · intro h
    rw [add_excess_income, if_pos h]

/-- Witness for C5 at a store with no income and 100 already saved, where
the excess is negative and the allocation is a no-op. -/
theorem claim_C5_witness :
    availableExcess dbTwoGoals 1 2025 ≤ 0 ∧
    add_excess_income dbTwoGoals 1 2025 [(1, 10)] = dbTwoGoals := by
  have h : availableExcess dbTwoGoals 1 2025 ≤ 0 := by
    norm_num [availableExcess, sumIncomeFor, sumExpensesFor, totalSaved,
      dbTwoGoals, goalA, goalB]
  exact ⟨h, (claim_C5_available_excess dbTwoGoals 1 2025 [(1, 10)]).2 h⟩

/-- Claim C6: removing more than `current_saved` of the chosen goal fails
with the validation error and leaves the store unchanged, while removing
any amount up to `current_saved` succeeds and decreases it by exactly
that amount. -/
theorem claim_C6_removal_bound (db : DB) (i : Nat) (amt : Rat)
    (h : hasGoal db.goals i = true) :
    (savedOf db.goals i < amt →
      remove_or_move_savings db i amt SavingsAction.remove
        = (db, some OpError.insufficientSaved)) ∧
    (amt ≤ savedOf db.goals i →
      (remove_or_move_savings db i amt SavingsAction.remove).2 = none ∧
      savedOf (remove_or_move_savings db i amt SavingsAction.remove).1.goals i
        = savedOf db.goals i - amt) := by
  obtain ⟨g, hfind, hsaved⟩ := findGoal_of_hasGoal db.goals i h
  have hEmpty : db.goals.isEmpty = false := isEmpty_false_of_hasGoal db.goals i h
  constructor
  · intro hlt
    have hlt2 : g.current_saved < amt := by rw [hsaved]; exact hlt
    simp only [remove_or_move_savings, hEmpty, Bool.false_eq_true, if_false,
      hfind, if_pos hlt2]
  · intro hle
    have hle2 : ¬ g.current_saved < amt := not_lt.mpr (by rw [hsaved]; exact hle)
    simp only [remove_or_move_savings, hEmpty, Bool.false_eq_true, if_false,
      hfind, if_neg hle2]
    refine ⟨trivial, ?_⟩
    show savedOf (debitGoal db.goals i amt) i = savedOf db.goals i - amt
    rw [debitGoal_eq_creditGoal_neg, savedOf_creditGoal_self db.goals i (-amt) h,
      sub_eq_add_neg]

/-- Witness for C6 at a goal with 100 saved: removing 101 fails and
removing 40 leaves 60. -/
theorem claim_C6_witness :
    (remove_or_move_savings dbTwoGoals 1 101 SavingsAction.remove
      = (dbTwoGoals, some OpError.insufficientSaved)) ∧
    (remove_or_move_savings dbTwoGoals 1 40 SavingsAction.remove).2 = none ∧
    savedOf (remove_or_move_savings dbTwoGoals 1 40 SavingsAction.remove).1.goals 1
      = savedOf dbTwoGoals.goals 1 - 40 := by
  have h1 : hasGoal dbTwoGoals.goals 1 = true := by
    norm_num [hasGoal, findGoal, dbTwoGoals, goalA]
  refine ⟨(claim_C6_removal_bound dbTwoGoals 1 101 h1).1 ?_,
    (claim_C6_removal_bound dbTwoGoals 1 40 h1).2 ?_⟩
  · norm_num [savedOf, dbTwoGoals, goalA]
  · norm_num [savedOf, dbTwoGoals, goalA]

/-- Claim C8: setting a budget for a (category, month, year) triple twice
leaves exactly one budget row for the triple, carrying the second amount
(last write wins), provided the store respects the UNIQUE constraint
(at most one row for the triple beforehand). -/
theorem claim_C8_budget_upsert (db : DB) (c : String) (A B : Rat) (m y : Nat)
    (h : (db.budgets.filter (budgetMatches c m y)).length ≤ 1) :
    ((set_budget (set_budget db c A m y) c B m y).budgets.filter
      (budgetMatches c m y)).length = 1 ∧
    ∀ b ∈ (set_budget (set_budget db c A m y) c B m y).budgets,
      budgetMatches c m y b = true → b.budget_amount = B := by
  refine ⟨?_, set_budget_amount (set_budget db c A m y) c B m y⟩
  exact set_budget_filter_length (set_budget db c A m y) c B m y
    (le_of_eq (set_budget_filter_length db c A m y h))

/-- Witness for C8: from an empty budget table, setting Food 3/2025 to
100 and then to 150 leaves one matching row with amount 150. -/
theorem claim_C8_witness :
    ((set_budget (set_budget dbBase ("Food") 100 3 2025) "Food" 150 3 2025).budgets.filter
      (budgetMatches ("Food") 3 2025)).length = 1 ∧
    ∀ b ∈ (set_budget (set_budget dbBase ("Food") 100 3 2025) "Food" 150 3 2025).budgets,
      budgetMatches ("Food") 3 2025 b = true → b.budget_amount = 150 :=
  claim_C8_budget_upsert dbBase ("Food") 100 150 3 2025 (by norm_num [dbBase])

/-- Claim C9 counterexample: for a goal with a negative target amount
(creatable, since neither `create_goal` nor `change_goal_amount` rejects
one), the reported progress is 0, not `current_saved / target_amount *
100`, so the claim as stated (formula applies whenever target is nonzero)
is false. -/
theorem claim_C9_counterexample :
    ∃ line ∈ view_goal_progress dbNegTarget,
      line.target_amount ≠ 0 ∧
      line.percent ≠ line.current_saved / line.target_amount * 100 := by
  refine ⟨⟨"Odd", 50, -100, 0⟩, ?_, by norm_num, by norm_num⟩
  norm_num [view_goal_progress, dbNegTarget, goalNeg]

/-- Claim C9 amended: the reported progress of every goal is 0 whenever
`target_amount <= 0` (not only when it is exactly 0), and equals
`current_saved / target_amount * 100` whenever `target_amount > 0`. -/
theorem claim_C9_amended (db : DB) (line : ProgressLine)
    (h : line ∈ view_goal_progress db) :
    (line.target_amount ≤ 0 → line.percent = 0) ∧
    (0 < line.target_amount →
      line.percent = line.current_saved / line.target_amount * 100) := by
  obtain ⟨g, _, rfl⟩ := List.mem_map.mp h
  constructor
  · intro hle
    show (if 0 < g.target_amount then g.current_saved / g.target_amount * 100 else 0) = 0
    rw [if_neg (not_lt.mpr hle)]
  · intro hlt
    show (if 0 < g.target_amount then g.current_saved / g.target_amount * 100 else 0)
      = g.current_saved / g.target_amount * 100
    rw [if_pos hlt]

/-- Witness for the amended C9 at the negative-target store. -/
theorem claim_C9_witness :
    ∃ line ∈ view_goal_progress dbNegTarget, line.percent = 0 := by
  refine ⟨⟨"Odd", 50, -100, 0⟩, ?_, ?_⟩
  · norm_num [view_goal_progress, dbNegTarget, goalNeg]
  · have hmem : (⟨"Odd", 50, -100, 0⟩ : ProgressLine) ∈ view_goal_progress dbNegTarget := by
      norm_num [view_goal_progress, dbNegTarget, goalNeg]
    exact (claim_C9_amended dbNegTarget ⟨"Odd", 50, -100, 0⟩ hmem).1 (by norm_num)

/-- Claim C2 evidence: transferring 50 out of goal 1 (100 saved) to the
nonexistent destination id 999 is accepted by the code — it reports
success, applies the debit, and the credit is a no-op, so the total saved
shrinks by 50: the debit and credit are not all-or-nothing and the
destination id is not validated. -/
theorem claim_C2_failing_input :
    hasGoal dbTwoGoals.goals 999 = false ∧
    (remove_or_move_savings dbTwoGoals 1 50 (SavingsAction.transfer 999)).2 = none ∧
    savedOf (remove_or_move_savings dbTwoGoals 1 50 (SavingsAction.transfer 999)).1.goals 1
      = 50 ∧
    totalSaved (remove_or_move_savings dbTwoGoals 1 50 (SavingsAction.transfer 999)).1.goals
      = totalSaved dbTwoGoals.goals - 50 := by
  norm_num [remove_or_move_savings, dbTwoGoals, goalA, goalB, hasGoal, findGoal,
    savedOf, debitGoal, creditGoal, debitFn, creditFn, totalSaved]

/-- Claim C4 evidence: transferring the negative amount -50 from goal 1
to goal 2 passes the `amt > current_saved` check, reports success, and
drives the `current_saved` of goal 2 to -50, violating the non-negativity
invariant that held beforehand. -/
theorem claim_C4_failing_input :
    (∀ g ∈ dbTwoGoals.goals, 0 ≤ g.current_saved) ∧
    (remove_or_move_savings dbTwoGoals 1 (-50) (SavingsAction.transfer 2)).2 = none ∧
    savedOf (remove_or_move_savings dbTwoGoals 1 (-50) (SavingsAction.transfer 2)).1.goals 2
      = -50 ∧
    ¬ (∀ g ∈ (remove_or_move_savings dbTwoGoals 1 (-50) (SavingsAction.transfer 2)).1.goals,
        0 ≤ g.current_saved) := by
  norm_num [remove_or_move_savings, dbTwoGoals, goalA, goalB, findGoal,
    savedOf, debitGoal, creditGoal, debitFn, creditFn]

/-- Claim C3: transferring an amount `amt <= current_saved` between two
distinct existing goals reports success, decreases the source by exactly
`amt`, increases the destination by exactly `amt`, and leaves the total
saved across all goals unchanged. -/
theorem claim_C3_transfer_conserves (db : DB) (i1 i2 : Nat) (amt : Rat)
    (hnd : (db.goals.map SavingsGoal.id).Nodup)
    (h1 : hasGoal db.goals i1 = true) (h2 : hasGoal db.goals i2 = true)
    (hne : i1 ≠ i2) (hle : amt ≤ savedOf db.goals i1) :
    (remove_or_move_savings db i1 amt (SavingsAction.transfer i2)).2 = none ∧
    savedOf (remove_or_move_savings db i1 amt (SavingsAction.transfer i2)).1.goals i1
      = savedOf db.goals i1 - amt ∧
    savedOf (remove_or_move_savings db i1 amt (SavingsAction.transfer i2)).1.goals i2
      = savedOf db.goals i2 + amt ∧
    totalSaved (remove_or_move_savings db i1 amt (SavingsAction.transfer i2)).1.goals
      = totalSaved db.goals := by
  obtain ⟨g, hfind, hsaved⟩ := findGoal_of_hasGoal db.goals i1 h1
  have hEmpty : db.goals.isEmpty = false := isEmpty_false_of_hasGoal db.goals i1 h1
  have hguard : ¬ g.current_saved < amt := not_lt.mpr (by rw [hsaved]; exact hle)
  have hred : remove_or_move_savings db i1 amt (SavingsAction.transfer i2)
      = ({ db with goals := debitGoal (creditGoal db.goals i2 amt) i1 amt }, none) := by
    simp only [remove_or_move_savings, hEmpty, Bool.false_eq_true, if_false, hfind,
      if_neg hguard]
  rw [hred]
  refine ⟨rfl, ?_, ?_, ?_⟩
  · show savedOf (debitGoal (creditGoal db.goals i2 amt) i1 amt) i1 = _
    rw [debitGoal_eq_creditGoal_neg,
      savedOf_creditGoal_self _ i1 (-amt) (by rw [hasGoal_creditGoal]; exact h1),
      savedOf_creditGoal_ne db.goals i2 i1 amt hne, sub_eq_add_neg]
  · show savedOf (debitGoal (creditGoal db.goals i2 amt) i1 amt) i2 = _
    rw [debitGoal_eq_creditGoal_neg,
      savedOf_creditGoal_ne _ i1 i2 (-amt) (fun hq => hne hq.symm),
      savedOf_creditGoal_self db.goals i2 amt h2]
  · show totalSaved (debitGoal (creditGoal db.goals i2 amt) i1 amt) = _
    have hnd2 : ((creditGoal db.goals i2 amt).map SavingsGoal.id).Nodup := by
      rw [creditGoal_map_id]
      exact hnd
    rw [debitGoal_eq_creditGoal_neg,
      totalSaved_creditGoal _ i1 (-amt) hnd2 (by rw [hasGoal_creditGoal]; exact h1),
      totalSaved_creditGoal db.goals i2 amt hnd h2]
    ring

/-- Witness for C3 at the example of the spec: goals with 200 and 10
saved, transferring 50. -/
theorem claim_C3_witness :
    (remove_or_move_savings dbTransfer 1 50 (SavingsAction.transfer 2)).2 = none ∧
    savedOf (remove_or_move_savings dbTransfer 1 50 (SavingsAction.transfer 2)).1.goals 1
      = savedOf dbTransfer.goals 1 - 50 ∧
    savedOf (remove_or_move_savings dbTransfer 1 50 (SavingsAction.transfer 2)).1.goals 2
      = savedOf dbTransfer.goals 2 + 50 ∧
    totalSaved (remove_or_move_savings dbTransfer 1 50 (SavingsAction.transfer 2)).1.goals
      = totalSaved dbTransfer.goals :=
  claim_C3_transfer_conserves dbTransfer 1 2 50
    (by norm_num [dbTransfer])
    (by norm_num [hasGoal, findGoal, dbTransfer])
    (by norm_num [hasGoal, findGoal, dbTransfer])
    (by norm_num)
    (by norm_num [savedOf, dbTransfer])

theorem processAssignments_pair (E a1 a2 : Rat) (i1 i2 : Nat)
    (ha1 : 0 ≤ a1) (ha2 : 0 ≤ a2) (hsum : a1 + a2 ≤ E) :
    (processAssignments E [(i1, a1), (i2, a2)]).2
      = (if 0 < a1 then [(i1, a1)] else []) ++ (if 0 < a2 then [(i2, a2)] else []) := by
  have hna1 : ¬ a1 < 0 := not_lt.mpr ha1
  have hna2 : ¬ a2 < 0 := not_lt.mpr ha2
  have hle1 : ¬ E < a1 := not_lt.mpr (by linarith)
  by_cases hp1 : 0 < a1
  · have hle2 : ¬ E - a1 < a2 := not_lt.mpr (by linarith)
    by_cases hp2 : 0 < a2 <;>
      simp [processAssignments, hna1, hle1, hp1, hna2, hle2, hp2]
  · have hz1 : a1 = 0 := le_antisymm (not_lt.mp hp1) ha1
    have hle2 : ¬ E < a2 := not_lt.mpr (by linarith)
    by_cases hp2 : 0 < a2 <;>
      simp [processAssignments, hna1, hle1, hp1, hna2, hle2, hp2]

theorem processAssignments_pair_rejects_second (E a1 a2 : Rat) (i1 i2 : Nat)
    (hp1 : 0 < a1) (hle : a1 ≤ E) (hr : E - a1 < a2) :
    (processAssignments E [(i1, a1), (i2, a2)]).2 = [(i1, a1)] := by
  have hna1 : ¬ a1 < 0 := by linarith
  have hle1 : ¬ E < a1 := not_lt.mpr hle
  have hp2 : 0 < a2 := by linarith
  have hna2 : ¬ a2 < 0 := by linarith
  simp [processAssignments, hna1, hle1, hp1, hna2, hr]

theorem processAssignments_pair_neg_first (E a1 a2 : Rat) (i1 i2 : Nat)
    (hn : a1 < 0) (ha2 : 0 ≤ a2) (hle : a2 ≤ E) :
    (processAssignments E [(i1, a1), (i2, a2)]).2
      = if 0 < a2 then [(i2, a2)] else [] := by
  have hna2 : ¬ a2 < 0 := not_lt.mpr ha2
  have hle2 : ¬ E < a2 := not_lt.mpr hle
  by_cases hp2 : 0 < a2 <;> simp [processAssignments, hn, hna2, hle2, hp2]

theorem processAssignments_sum_le (l : List (Nat × Rat)) :
    ∀ r : Rat, 0 ≤ r → (((processAssignments r l).2.map Prod.snd)).sum ≤ r := by
  induction l with
  | nil =>
    intro r hr
    simpa [processAssignments] using hr
  | cons q l ih =>
    intro r hr
    obtain ⟨qi, qa⟩ := q
    by_cases h1 : qa < 0
    · simp only [processAssignments, if_pos h1]
      exact ih r hr
    · by_cases h2 : r < qa
      · simp only [processAssignments, if_neg h1, if_pos h2]
        exact ih r hr
      · by_cases h3 : 0 < qa
        · simp only [processAssignments, if_neg h1, if_neg h2, if_pos h3]
          have hih := ih (r - qa) (by linarith [not_lt.mp h2])
          simp only [List.map_cons, List.sum_cons]
          linarith
        · simp only [processAssignments, if_neg h1, if_neg h2, if_neg h3]
          exact ih r hr

theorem totalSaved_applyAllocations_le (l : List (Nat × Rat)) :
    ∀ gs : List SavingsGoal, (gs.map SavingsGoal.id).Nodup →
      (∀ p ∈ l, 0 ≤ p.2) →
      totalSaved (applyAllocations gs l) ≤ totalSaved gs + (l.map Prod.snd).sum := by
  induction l with
  | nil =>
    intro gs _ _
    simp [applyAllocations, totalSaved]
  | cons p l ih =>
    intro gs hnd hpos
    rw [applyAllocations_cons]
    have hnd2 : ((creditGoal gs p.1 p.2).map SavingsGoal.id).Nodup := by
      rw [creditGoal_map_id]
      exact hnd
    have hih := ih (creditGoal gs p.1 p.2) hnd2
      (fun q hq => hpos q (List.mem_cons_of_mem p hq))
    have hcred : totalSaved (creditGoal gs p.1 p.2) ≤ totalSaved gs + p.2 := by
      by_cases hmem : hasGoal gs p.1 = true
      · exact le_of_eq (totalSaved_creditGoal gs p.1 p.2 hnd hmem)
      · have hno : creditGoal gs p.1 p.2 = gs := by
          apply creditGoal_of_forall_ne
          intro g hg hgid
          exact hmem ((hasGoal_iff_mem gs p.1).mpr ⟨g, hg, hgid⟩)
        have hq := hpos p (List.mem_cons_self p l)
        rw [hno]
        linarith
    have hsum : ((p :: l).map Prod.snd).sum = p.2 + (l.map Prod.snd).sum := by
      simp [List.map_cons, List.sum_cons]
    rw [hsum]
    linarith

theorem add_excess_income_goals (db : DB) (month year : Nat)
    (asg : List (Nat × Rat)) (hE : ¬ availableExcess db month year ≤ 0)
    (hne : db.goals.isEmpty = false) :
    (add_excess_income db month year asg).goals
      = applyAllocations db.goals
          (processAssignments (availableExcess db month year) asg).2 := by
  simp only [add_excess_income, if_neg hE, hne, Bool.false_eq_true, if_false]

theorem add_excess_income_tables (db : DB) (month year : Nat)
    (asg : List (Nat × Rat)) :
    (add_excess_income db month year asg).expenses = db.expenses ∧
    (add_excess_income db month year asg).income = db.income ∧
    (add_excess_income db month year asg).expense_categories = db.expense_categories ∧
    (add_excess_income db month year asg).income_categories = db.income_categories ∧
    (add_excess_income db month year asg).budgets = db.budgets := by
  by_cases hE : availableExcess db month year ≤ 0
  · rw [add_excess_income, if_pos hE]
    exact ⟨rfl, rfl, rfl, rfl, rfl⟩
  · by_cases hem : db.goals.isEmpty = true
    · rw [add_excess_income, if_neg hE, if_pos hem]
      exact ⟨rfl, rfl, rfl, rfl, rfl⟩
    · rw [add_excess_income, if_neg hE, if_neg hem]
      exact ⟨rfl, rfl, rfl, rfl, rfl⟩

/-- Claim C1: with positive available excess E and two distinct existing
goals, the batch is judged against one shared running remaining-excess
counter that starts at E and is decremented by each accepted amount:
(1) two nonnegative amounts with a1 + a2 <= E are both accepted and each
goal is credited by exactly its amount; (2) after a1 with 0 < a1 <= E is
accepted, a second amount exceeding the DECREMENTED remaining E - a1 is
rejected and its goal left unchanged, even when a2 <= E would fit a
freshly re-derived total; (3) a negative amount is rejected per item
without aborting the batch, the next in-budget amount is still credited;
(4) for EVERY batch, the total credited never exceeds the shared pool:
the sum of `current_saved` grows by at most E. -/
theorem claim_C1_allocation_conservation (db : DB) (month year i1 i2 : Nat)
    (hnd : (db.goals.map SavingsGoal.id).Nodup)
    (hE : 0 < availableExcess db month year)
    (h1 : hasGoal db.goals i1 = true) (h2 : hasGoal db.goals i2 = true)
    (hne : i1 ≠ i2) :
    (∀ a1 a2 : Rat, 0 ≤ a1 → 0 ≤ a2 → a1 + a2 ≤ availableExcess db month year →
      savedOf (add_excess_income db month year [(i1, a1), (i2, a2)]).goals i1
        = savedOf db.goals i1 + a1 ∧
      savedOf (add_excess_income db month year [(i1, a1), (i2, a2)]).goals i2
        = savedOf db.goals i2 + a2) ∧
    (∀ a1 a2 : Rat, 0 < a1 → a1 ≤ availableExcess db month year →
      availableExcess db month year - a1 < a2 →
      savedOf (add_excess_income db month year [(i1, a1), (i2, a2)]).goals i1
        = savedOf db.goals i1 + a1 ∧
      savedOf (add_excess_income db month year [(i1, a1), (i2, a2)]).goals i2
        = savedOf db.goals i2) ∧
    (∀ a1 a2 : Rat, a1 < 0 → 0 ≤ a2 → a2 ≤ availableExcess db month year →
      savedOf (add_excess_income db month year [(i1, a1), (i2, a2)]).goals i1
        = savedOf db.goals i1 ∧
      savedOf (add_excess_income db month year [(i1, a1), (i2, a2)]).goals i2
        = savedOf db.goals i2 + a2) ∧
    (∀ asg : List (Nat × Rat),
      totalSaved (add_excess_income db month year asg).goals
        ≤ totalSaved db.goals + availableExcess db month year) := by
  have hnle : ¬ availableExcess db month year ≤ 0 := not_le.mpr hE
  have hEmp : db.goals.isEmpty = false := isEmpty_false_of_hasGoal db.goals i1 h1
  have hi2i1 : i2 ≠ i1 := fun hq => hne hq.symm
  refine ⟨?_, ?_, ?_, ?_⟩
  · intro a1 a2 ha1 ha2 hsum
    rw [add_excess_income_goals db month year [(i1, a1), (i2, a2)] hnle hEmp]
    rw [processAssignments_pair (availableExcess db month year) a1 a2 i1 i2 ha1 ha2 hsum]
    by_cases hp1 : 0 < a1
    · by_cases hp2 : 0 < a2
      · rw [if_pos hp1, if_pos hp2]
        show savedOf (applyAllocations db.goals [(i1, a1), (i2, a2)]) i1 = _ ∧
          savedOf (applyAllocations db.goals [(i1, a1), (i2, a2)]) i2 = _
        rw [applyAllocations_cons, applyAllocations_cons]
        constructor
        · show savedOf (creditGoal (creditGoal db.goals i1 a1) i2 a2) i1 = _
          rw [savedOf_creditGoal_ne _ i2 i1 a2 hne,
            savedOf_creditGoal_self db.goals i1 a1 h1]
        · show savedOf (creditGoal (creditGoal db.goals i1 a1) i2 a2) i2 = _
          rw [savedOf_creditGoal_self _ i2 a2 (by rw [hasGoal_creditGoal]; exact h2),
            savedOf_creditGoal_ne db.goals i1 i2 a1 hi2i1]
      · have hz2 : a2 = 0 := le_antisymm (not_lt.mp hp2) ha2
        rw [if_pos hp1, if_neg hp2]
        show savedOf (applyAllocations db.goals [(i1, a1)]) i1 = _ ∧
          savedOf (applyAllocations db.goals [(i1, a1)]) i2 = _
        rw [applyAllocations_cons]
        constructor
        · show savedOf (creditGoal db.goals i1 a1) i1 = _
          rw [savedOf_creditGoal_self db.goals i1 a1 h1]
        · show savedOf (creditGoal db.goals i1 a1) i2 = _
          rw [savedOf_creditGoal_ne db.goals i1 i2 a1 hi2i1, hz2, add_zero]
    · have hz1 : a1 = 0 := le_antisymm (not_lt.mp hp1) ha1
      by_cases hp2 : 0 < a2
      · rw [if_neg hp1, if_pos hp2]
        show savedOf (applyAllocations db.goals ([] ++ [(i2, a2)])) i1 = _ ∧
          savedOf (applyAllocations db.goals ([] ++ [(i2, a2)])) i2 = _
        rw [List.nil_append, applyAllocations_cons]
        constructor
        · show savedOf (creditGoal db.goals i2 a2) i1 = _
          rw [savedOf_creditGoal_ne db.goals i2 i1 a2 hne, hz1, add_zero]
        · show savedOf (creditGoal db.goals i2 a2) i2 = _
          rw [savedOf_creditGoal_self db.goals i2 a2 h2]
      · have hz2 : a2 = 0 := le_antisymm (not_lt.mp hp2) ha2
        rw [if_neg hp1, if_neg hp2]
        show savedOf (applyAllocations db.goals ([] ++ [])) i1 = _ ∧
          savedOf (applyAllocations db.goals ([] ++ [])) i2 = _
        rw [List.nil_append]
        exact ⟨by rw [hz1, add_zero]; rfl, by rw [hz2, add_zero]; rfl⟩
  · intro a1 a2 hp1 hle hr
    rw [add_excess_income_goals db month year [(i1, a1), (i2, a2)] hnle hEmp]
    rw [processAssignments_pair_rejects_second (availableExcess db month year)
      a1 a2 i1 i2 hp1 hle hr]
    show savedOf (applyAllocations db.goals [(i1, a1)]) i1 = _ ∧
      savedOf (applyAllocations db.goals [(i1, a1)]) i2 = _
    rw [applyAllocations_cons]
    constructor
    · show savedOf (creditGoal db.goals i1 a1) i1 = _
      rw [savedOf_creditGoal_self db.goals i1 a1 h1]
    · show savedOf (creditGoal db.goals i1 a1) i2 = _
      rw [savedOf_creditGoal_ne db.goals i1 i2 a1 hi2i1]
  · intro a1 a2 hn ha2 hle
    rw [add_excess_income_goals db month year [(i1, a1), (i2, a2)] hnle hEmp]
    rw [processAssignments_pair_neg_first (availableExcess db month year)
      a1 a2 i1 i2 hn ha2 hle]
    by_cases hp2 : 0 < a2
    · rw [if_pos hp2]
      show savedOf (applyAllocations db.goals [(i2, a2)]) i1 = _ ∧
        savedOf (applyAllocations db.goals [(i2, a2)]) i2 = _
      rw [applyAllocations_cons]
      constructor
      · show savedOf (creditGoal db.goals i2 a2) i1 = _
        rw [savedOf_creditGoal_ne db.goals i2 i1 a2 hne]
      · show savedOf (creditGoal db.goals i2 a2) i2 = _
        rw [savedOf_creditGoal_self db.goals i2 a2 h2]
    · have hz2 : a2 = 0 := le_antisymm (not_lt.mp hp2) ha2
      rw [if_neg hp2]
      exact ⟨rfl, by rw [hz2, add_zero]; rfl⟩
  · intro asg
    rw [add_excess_income_goals db month year asg hnle hEmp]
    have hpos : ∀ p ∈ (processAssignments (availableExcess db month year) asg).2,
        0 ≤ p.2 :=
      fun p hp => le_of_lt (mem_processAssignments _ _ p hp).2
    have hA := totalSaved_applyAllocations_le
      (processAssignments (availableExcess db month year) asg).2 db.goals hnd hpos
    have hB := processAssignments_sum_le asg (availableExcess db month year)
      (le_of_lt hE)
    linarith

/-- Witness for C1 at a store with 1000 excess for 3/2025 and two fresh
goals: 300 then 400 are both credited exactly; after 800 is accepted, 900
is rejected against the decremented remaining 200 although 900 would fit
the fresh total 1000; a negative first offer is rejected without aborting
the batch; and the batch offering 600 twice (each within the fresh total)
cannot grow the total saved beyond the 1000 pool. -/
theorem claim_C1_witness :
    (savedOf (add_excess_income dbMarch 3 2025 [(1, 300), (2, 400)]).goals 1
        = savedOf dbMarch.goals 1 + 300 ∧
     savedOf (add_excess_income dbMarch 3 2025 [(1, 300), (2, 400)]).goals 2
        = savedOf dbMarch.goals 2 + 400) ∧
    (savedOf (add_excess_income dbMarch 3 2025 [(1, 800), (2, 900)]).goals 1
        = savedOf dbMarch.goals 1 + 800 ∧
     savedOf (add_excess_income dbMarch 3 2025 [(1, 800), (2, 900)]).goals 2
        = savedOf dbMarch.goals 2) ∧
    (savedOf (add_excess_income dbMarch 3 2025 [(1, -5), (2, 400)]).goals 1
        = savedOf dbMarch.goals 1 ∧
     savedOf (add_excess_income dbMarch 3 2025 [(1, -5), (2, 400)]).goals 2
        = savedOf dbMarch.goals 2 + 400) ∧
    totalSaved (add_excess_income dbMarch 3 2025 [(1, 600), (2, 600)]).goals
      ≤ totalSaved dbMarch.goals + availableExcess dbMarch 3 2025 := by
  have hEx : availableExcess dbMarch 3 2025 = 1000 := by
    norm_num [availableExcess, sumIncomeFor, sumExpensesFor, totalSaved, dbMarch]
  have h := claim_C1_allocation_conservation dbMarch 3 2025 1 2
    (by norm_num [dbMarch])
    (by rw [hEx]; norm_num)
    (by norm_num [hasGoal, findGoal, dbMarch])
    (by norm_num [hasGoal, findGoal, dbMarch])
    (by norm_num)
  refine ⟨h.1 300 400 (by norm_num) (by norm_num) (by rw [hEx]; norm_num),
    h.2.1 800 900 (by norm_num) (by rw [hEx]; norm_num) (by rw [hEx]; norm_num),
    h.2.2.1 (-5) 400 (by norm_num) (by norm_num) (by rw [hEx]; norm_num),
    h.2.2.2 [(1, 600), (2, 600)]⟩

/-- Claim C10: an allocation batch modifies only the `current_saved` of
goals that received an accepted positive allocation: all other tables are
untouched, every goal keeps its id, name, target amount and target date,
and a goal that is never assigned a positive amount (skipped with 0 or
not assigned at all) keeps its `current_saved`. -/
theorem claim_C10_allocation_frame (db : DB) (month year : Nat)
    (asg : List (Nat × Rat)) :
    ((add_excess_income db month year asg).expenses = db.expenses ∧
     (add_excess_income db month year asg).income = db.income ∧
     (add_excess_income db month year asg).expense_categories = db.expense_categories ∧
     (add_excess_income db month year asg).income_categories = db.income_categories ∧
     (add_excess_income db month year asg).budgets = db.budgets) ∧
    (add_excess_income db month year asg).goals.map goalFrame
      = db.goals.map goalFrame ∧
    ∀ i : Nat, (∀ p ∈ asg, p.1 = i → p.2 = 0) →
      savedOf (add_excess_income db month year asg).goals i = savedOf db.goals i := by
  by_cases hE : availableExcess db month year ≤ 0
  · have hid : add_excess_income db month year asg = db := by
      rw [add_excess_income, if_pos hE]
    rw [hid]
    exact ⟨⟨rfl, rfl, rfl, rfl, rfl⟩, rfl, fun i _ => rfl⟩
  · by_cases hem : db.goals.isEmpty = true
    · have hid : add_excess_income db month year asg = db := by
        rw [add_excess_income, if_neg hE, if_pos hem]
      rw [hid]
      exact ⟨⟨rfl, rfl, rfl, rfl, rfl⟩, rfl, fun i _ => rfl⟩
    · have hem2 : db.goals.isEmpty = false := by
        cases h : db.goals.isEmpty with
        | false => rfl
        | true => exact absurd h hem
      have hgl := add_excess_income_goals db month year asg hE hem2
      refine ⟨add_excess_income_tables db month year asg, ?_, ?_⟩
      · rw [hgl]
        exact applyAllocations_map_frame db.goals _
      · intro i hi
        rw [hgl]
        apply savedOf_applyAllocations_of_ne
        intro p hp
        obtain ⟨hmem, hpos⟩ := mem_processAssignments _ _ p hp
        intro hpi
        exact absurd (hi p hmem hpi) (ne_of_gt hpos)

/-- Witness for C10: allocating 10 to goal 1 and skipping goal 2 with 0
leaves the budget table and the `current_saved` of goal 2 unchanged. -/
theorem claim_C10_witness :
    (add_excess_income dbMarch 3 2025 [(1, 10), (2, 0)]).budgets = dbMarch.budgets ∧
    savedOf (add_excess_income dbMarch 3 2025 [(1, 10), (2, 0)]).goals 2
      = savedOf dbMarch.goals 2 := by
  refine ⟨(claim_C10_allocation_frame dbMarch 3 2025 [(1, 10), (2, 0)]).1.2.2.2.2, ?_⟩
  refine (claim_C10_allocation_frame dbMarch 3 2025 [(1, 10), (2, 0)]).2.2 2 ?_
  intro p hp hp2
  rcases List.mem_cons.mp hp with rfl | hp1
  · exact absurd hp2 (by norm_num)
  · rcases List.mem_cons.mp hp1 with rfl | hp0
    · rfl
    · exact absurd hp0 (List.not_mem_nil p)

/-- Claim C7: evaluating a budget for a triple with a stored row reports
the stored `budget_amount` and the summed expenses of that category and
period (so delta = spent - budgeted); with no row for the triple it
reports the not-found outcome instead of defaulting; and the end-to-end
scenario yields budgeted 300, spent 400, delta 100 and a period net of
income 1000, expenses 400, net 600. -/
theorem claim_C7_budget_evaluate (db : DB) (c : String) (m y : Nat) :
    ((∀ b ∈ db.budgets, budgetMatches c m y b = false) →
      view_budget_for_category db c m y = none) ∧
    (∀ r : Rat × Rat, view_budget_for_category db c m y = some r →
      (∃ b ∈ db.budgets, budgetMatches c m y b = true ∧ r.1 = b.budget_amount) ∧
      r.2 = sumExpensesForCategory db c m y) ∧
    (view_budget_for_category dbScenario ("Food") 3 2025).map
        (fun r => (r.1, r.2, r.2 - r.1)) = some (300, 400, 100) ∧
    calculate_overall_budget dbScenario 3 2025 = (1000, 400, 600) := by
  refine ⟨?_, ?_, ?_, ?_⟩
  · intro h
    have hf : db.budgets.find? (budgetMatches c m y) = none := by
      rw [List.find?_eq_none]
      intro x hx
      rw [h x hx]
      simp
    rw [view_budget_for_category, hf]
  · intro r hr
    rw [view_budget_for_category] at hr
    cases hf : db.budgets.find? (budgetMatches c m y) with
    | none =>
      rw [hf] at hr
      exact absurd hr (by simp)
    | some bb =>
      rw [hf] at hr
      have hmem := List.mem_of_find?_eq_some hf
      have hp := List.find?_some hf
      have hr2 : (bb.budget_amount, sumExpensesForCategory db c m y) = r :=
        Option.some_inj.mp hr
      rw [← hr2]
      exact ⟨⟨bb, hmem, hp, rfl⟩, rfl⟩
  · norm_num [dbScenario, dbBase, add_income, add_expense, set_budget,
      view_budget_for_category, budgetMatches, nextBudgetId, nextLedgerId,
      sumExpensesForCategory, List.find?]
  · norm_num [dbScenario, dbBase, add_income, add_expense, set_budget,
      calculate_overall_budget, sumIncomeFor, sumExpensesFor,
      nextBudgetId, nextLedgerId]

/-- Witness for C7: the scenario store has no Food budget for 1/2025, so
evaluation for that period reports not-found. -/
theorem claim_C7_witness :
    view_budget_for_category dbScenario ("Food") 1 2025 = none := by
  apply (claim_C7_budget_evaluate dbScenario ("Food") 1 2025).1
  intro b hb
  have hb2 : b = ⟨1, "Food", 300, 3, 2025⟩ := by
    revert hb
    norm_num [dbScenario, dbBase, add_income, add_expense, set_budget,
      nextBudgetId, nextLedgerId, budgetMatches]
  rw [hb2]
  norm_num [budgetMatches]

end MyFinance
